import Mathlib

/-!
Verification development for the watchObj repository (src/unnamed/part_000,
the `WatchManager` class and its module-level helpers).

The JavaScript source is shallowly embedded as executable Lean functions.
Modelling conventions, fixed once here:

* JavaScript values are modelled by `JSValue`.  Machine floats do not occur
  in any code path under study; numbers are modelled as integers.  Object
  and function identity is modelled by a natural-number reference id.
* A watched target's own data properties are an ordered association list
  (`ObjState.props`); every modelled property is a configurable, writable,
  enumerable data property, matching the plain-object/array targets the
  repository's tests exercise.  Prototype-chain lookups contribute nothing
  (targets are modelled with inert prototypes), so `Reflect.get` is own-
  property lookup.
* Property keys are strings (symbols behave identically in the code).
* User callbacks installed through the configuration are modelled as Lean
  functions.  Hooks executed through `WatchManager._executeHook` and global
  interceptors executed through `_executeGlobalInterceptors` may throw, so
  they return `Except String JSValue`; faults are represented by the thrown
  message.  Modifier / override / gate callbacks are invoked directly by the
  source without a surrounding catch of their own, and are modelled as total
  functions: no claim under study concerns a throwing modifier.
* Console output and `debugger` breaks are observable effects, recorded in
  an `Event` trace returned alongside every result.
* `Date.now()` and `performance.now()` are modelled by a single clock value
  `now` passed to each pipeline; no claim depends on real durations.
-/

namespace WatchObj

/-- Model of a JavaScript value as far as the watchObj code observes it:
primitives, arrays, references to objects/functions by identity, and
property descriptors.  A descriptor `descVal v` stands for the data
descriptor with value `v` and default attributes. -/
inductive JSValue where
  | undefined : JSValue
  | null : JSValue
  | bool (b : Bool) : JSValue
  | num (n : Int) : JSValue
  | str (s : String) : JSValue
  | arr (elems : List JSValue) : JSValue
  | ref (id : Nat) : JSValue
  | descVal (v : JSValue) : JSValue

/-- Decidable equality of modelled values (spelled out because automatic
derivation does not handle the nested list of array elements). -/
def JSValue.decEq : (a b : JSValue) → Decidable (a = b)
  | .undefined, .undefined => isTrue rfl
  | .null, .null => isTrue rfl
  | .bool x, .bool y =>
      if h : x = y then isTrue (by rw [h]) else isFalse (fun hh => h (JSValue.bool.inj hh))
  | .num x, .num y =>
      if h : x = y then isTrue (by rw [h]) else isFalse (fun hh => h (JSValue.num.inj hh))
  | .str x, .str y =>
      if h : x = y then isTrue (by rw [h]) else isFalse (fun hh => h (JSValue.str.inj hh))
  | .ref x, .ref y =>
      if h : x = y then isTrue (by rw [h]) else isFalse (fun hh => h (JSValue.ref.inj hh))
  | .descVal x, .descVal y =>
      match JSValue.decEq x y with
      | isTrue h => isTrue (by rw [h])
      | isFalse h => isFalse (fun hh => h (JSValue.descVal.inj hh))
  | .arr [], .arr [] => isTrue rfl
  | .arr [], .arr (_ :: _) => isFalse (by intro h; cases h)
  | .arr (_ :: _), .arr [] => isFalse (by intro h; cases h)
  | .arr (x :: xs), .arr (y :: ys) =>
      match JSValue.decEq x y, JSValue.decEq (.arr xs) (.arr ys) with
      | isTrue h1, isTrue h2 => isTrue (by rw [h1, JSValue.arr.inj h2])
      | isFalse h1, _ => isFalse (by intro hh; cases hh; exact h1 rfl)
      | _, isFalse h2 => isFalse (by intro hh; cases hh; exact h2 rfl)
  | .undefined, .null => isFalse (fun h => JSValue.noConfusion h)
  | .undefined, .bool _ => isFalse (fun h => JSValue.noConfusion h)
  | .undefined, .num _ => isFalse (fun h => JSValue.noConfusion h)
  | .undefined, .str _ => isFalse (fun h => JSValue.noConfusion h)
  | .undefined, .arr _ => isFalse (fun h => JSValue.noConfusion h)
  | .undefined, .ref _ => isFalse (fun h => JSValue.noConfusion h)
  | .undefined, .descVal _ => isFalse (fun h => JSValue.noConfusion h)
  | .null, .undefined => isFalse (fun h => JSValue.noConfusion h)
  | .null, .bool _ => isFalse (fun h => JSValue.noConfusion h)
  | .null, .num _ => isFalse (fun h => JSValue.noConfusion h)
  | .null, .str _ => isFalse (fun h => JSValue.noConfusion h)
  | .null, .arr _ => isFalse (fun h => JSValue.noConfusion h)
  | .null, .ref _ => isFalse (fun h => JSValue.noConfusion h)
  | .null, .descVal _ => isFalse (fun h => JSValue.noConfusion h)
  | .bool _, .undefined => isFalse (fun h => JSValue.noConfusion h)
  | .bool _, .null => isFalse (fun h => JSValue.noConfusion h)
  | .bool _, .num _ => isFalse (fun h => JSValue.noConfusion h)
  | .bool _, .str _ => isFalse (fun h => JSValue.noConfusion h)
  | .bool _, .arr _ => isFalse (fun h => JSValue.noConfusion h)
  | .bool _, .ref _ => isFalse (fun h => JSValue.noConfusion h)
  | .bool _, .descVal _ => isFalse (fun h => JSValue.noConfusion h)
  | .num _, .undefined => isFalse (fun h => JSValue.noConfusion h)
  | .num _, .null => isFalse (fun h => JSValue.noConfusion h)
  | .num _, .bool _ => isFalse (fun h => JSValue.noConfusion h)
  | .num _, .str _ => isFalse (fun h => JSValue.noConfusion h)
  | .num _, .arr _ => isFalse (fun h => JSValue.noConfusion h)
  | .num _, .ref _ => isFalse (fun h => JSValue.noConfusion h)
  | .num _, .descVal _ => isFalse (fun h => JSValue.noConfusion h)
  | .str _, .undefined => isFalse (fun h => JSValue.noConfusion h)
  | .str _, .null => isFalse (fun h => JSValue.noConfusion h)
  | .str _, .bool _ => isFalse (fun h => JSValue.noConfusion h)
  | .str _, .num _ => isFalse (fun h => JSValue.noConfusion h)
  | .str _, .arr _ => isFalse (fun h => JSValue.noConfusion h)
  | .str _, .ref _ => isFalse (fun h => JSValue.noConfusion h)
  | .str _, .descVal _ => isFalse (fun h => JSValue.noConfusion h)
  | .arr _, .undefined => isFalse (fun h => JSValue.noConfusion h)
  | .arr _, .null => isFalse (fun h => JSValue.noConfusion h)
  | .arr _, .bool _ => isFalse (fun h => JSValue.noConfusion h)
  | .arr _, .num _ => isFalse (fun h => JSValue.noConfusion h)
  | .arr _, .str _ => isFalse (fun h => JSValue.noConfusion h)
  | .arr _, .ref _ => isFalse (fun h => JSValue.noConfusion h)
  | .arr _, .descVal _ => isFalse (fun h => JSValue.noConfusion h)
  | .ref _, .undefined => isFalse (fun h => JSValue.noConfusion h)
  | .ref _, .null => isFalse (fun h => JSValue.noConfusion h)
  | .ref _, .bool _ => isFalse (fun h => JSValue.noConfusion h)
  | .ref _, .num _ => isFalse (fun h => JSValue.noConfusion h)
  | .ref _, .str _ => isFalse (fun h => JSValue.noConfusion h)
  | .ref _, .arr _ => isFalse (fun h => JSValue.noConfusion h)
  | .ref _, .descVal _ => isFalse (fun h => JSValue.noConfusion h)
  | .descVal _, .undefined => isFalse (fun h => JSValue.noConfusion h)
  | .descVal _, .null => isFalse (fun h => JSValue.noConfusion h)
  | .descVal _, .bool _ => isFalse (fun h => JSValue.noConfusion h)
  | .descVal _, .num _ => isFalse (fun h => JSValue.noConfusion h)
  | .descVal _, .str _ => isFalse (fun h => JSValue.noConfusion h)
  | .descVal _, .arr _ => isFalse (fun h => JSValue.noConfusion h)
  | .descVal _, .ref _ => isFalse (fun h => JSValue.noConfusion h)

instance : DecidableEq JSValue := JSValue.decEq

/-- JavaScript truthiness of a modelled value (objects, arrays and
descriptors are always truthy; an empty array is truthy). -/
def truthy : JSValue → Bool
  | .undefined => false
  | .null => false
  | .bool b => b
  | .num n => n != 0
  | .str s => s != ""
  | .arr _ => true
  | .ref _ => true
  | .descVal _ => true

/-- The JavaScript test `v !== undefined` (used by the full-override
short-circuits). -/
def isUndefined : JSValue → Bool
  | .undefined => true
  | _ => false

/-- The JavaScript strict test `v === false` (used by the predictive veto
of the three mutating kinds). -/
def strictlyFalse : JSValue → Bool
  | .bool false => true
  | _ => false

/-- The JavaScript expression `a || b` on modelled values. -/
def jsOr (a b : JSValue) : JSValue :=
  if truthy a then a else b

/-- The JavaScript expression `s || d` for the strings used as log names
(`target.name || 'anonymous'`, `name || 'object'`). -/
def strOr (s d : String) : String :=
  if s = "" then d else s

/-- Own data properties, prototype and extensibility of a watched target,
the state the thirteen fundamental operations read and write. -/
structure ObjState where
  props : List (String × JSValue) := []
  proto : JSValue := .null
  extensible : Bool := true
deriving DecidableEq

/-- Update or append an own property, preserving insertion order as the
host object does. -/
def setProp : List (String × JSValue) → String → JSValue → List (String × JSValue)
  | [], p, v => [(p, v)]
  | (q, w) :: rest, p, v =>
      if q = p then (q, v) :: rest else (q, w) :: setProp rest p v

/-- Reflect.get on a modelled target (own data property or undefined). -/
def reflectGet (s : ObjState) (p : String) : JSValue :=
  match s.props.lookup p with
  | some v => v
  | none => .undefined

/-- Reflect.has on a modelled target. -/
def reflectHas (s : ObjState) (p : String) : Bool :=
  (s.props.lookup p).isSome

/-- Reflect.set on a modelled target: succeeds when the property already
exists or the object is extensible. -/
def reflectSet (s : ObjState) (p : String) (v : JSValue) : Bool × ObjState :=
  if s.extensible || (s.props.lookup p).isSome then
    (true, { s with props := setProp s.props p v })
  else
    (false, s)

/-- Reflect.deleteProperty on a modelled target: every modelled property is
configurable, so deletion always reports true. -/
def reflectDelete (s : ObjState) (p : String) : Bool × ObjState :=
  (true, { s with props := s.props.filter (fun q => q.1 ≠ p) })

/-- Reflect.ownKeys on a modelled target. -/
def reflectOwnKeys (s : ObjState) : List String :=
  s.props.map (·.1)

/-- Reflect.getOwnPropertyDescriptor on a modelled target: a data
descriptor for a present own property, undefined otherwise. -/
def reflectGetOwnPropertyDescriptor (s : ObjState) (p : String) : JSValue :=
  match s.props.lookup p with
  | some v => .descVal v
  | none => .undefined

/-- Value carried by a descriptor argument (descriptors are modelled as
plain data descriptors; attribute flags are outside the model). -/
def descValue : JSValue → JSValue
  | .descVal v => v
  | v => v

/-- Reflect.defineProperty on a modelled target: succeeds when the
property exists or the object is extensible. -/
def reflectDefineProperty (s : ObjState) (p : String) (d : JSValue) : Bool × ObjState :=
  if s.extensible || (s.props.lookup p).isSome then
    (true, { s with props := setProp s.props p (descValue d) })
  else
    (false, s)

/-- Reflect.setPrototypeOf on a modelled target. -/
def reflectSetPrototypeOf (s : ObjState) (proto : JSValue) : Bool × ObjState :=
  if s.extensible then (true, { s with proto := proto })
  else (decide (proto = s.proto), s)

/-- The invocable part of a watched target: its `name` and its call and
construct behaviour, both of which may throw. -/
structure FnTarget where
  name : String := ""
  call : JSValue → List JSValue → Except String JSValue := fun _ _ => .ok .undefined
  construct : List JSValue → JSValue → Except String JSValue := fun _ _ => .ok .undefined

/-- One operation context, the plain record `_createContext` builds and the
pipeline stages enrich (`{...context, result}` and friends).  Absent fields
are `none`; `stackCaptured` models the optional `stack` field. -/
structure Ctx where
  type : String := ""
  timestamp : Nat := 0
  target : Option JSValue := none
  property : Option String := none
  receiver : Option JSValue := none
  thisArg : Option JSValue := none
  newTarget : Option JSValue := none
  args : Option (List JSValue) := none
  value : Option JSValue := none
  oldValue : Option JSValue := none
  newValue : Option JSValue := none
  result : Option JSValue := none
  instanceV : Option JSValue := none
  success : Option Bool := none
  propExists : Option JSValue := none
  deletedValue : Option JSValue := none
  descriptor : Option JSValue := none
  keys : Option JSValue := none
  prototype : Option JSValue := none
  duration : Option Nat := none
  replaced : Option Bool := none
  error : Option String := none
  stackCaptured : Bool := false

/-- Observable console / debugger effects of one engine call. -/
inductive Event where
  | hookRun : Event
  | consoleError (msg : String) : Event
  | observerRun (idx : Nat) : Event
  | debuggerBreak : Event
  | consoleLog (level : String) (msg : String) : Event
  | consoleWarn (msg : String) : Event
deriving Repr, DecidableEq

/-- A user hook run through `_executeHook` (may throw). -/
def Hook : Type := Ctx → Except String JSValue

/-- A global interceptor: phase tag and context (may throw). -/
def Observer : Type := String → Ctx → Except String JSValue

/-- A replacement callable produced by `replaceFunction`. -/
def FnLike : Type := JSValue → List JSValue → Except String JSValue

/-- The `debug` option: a plain value or a predicate over the context. -/
inductive DebugCfg where
  | val (v : JSValue) : DebugCfg
  | pred (f : Ctx → JSValue) : DebugCfg

/-- One entry of the old reduced per-kind configuration shape
(`{log, debugger, onModResult}`), as documented in the repository's CLI
usage text (src/bin/cmd.js). -/
structure KindProfile where
  log : Option Bool := none
  debuggerCfg : Option JSValue := none
  onModResult : Option (Ctx → JSValue) := none

/-- The normalized configuration produced by `_normalizeConfig`; field
defaults are exactly the defaults of the source object literal
(src/unnamed/part_000 lines 169-224).  `extraKinds` carries spread-in keys
that no interceptor reads (such as the reduced per-kind profiles). -/
structure Config where
  debug : DebugCfg := .val (.bool false)
  log : Bool := true
  logLevel : String := "info"
  onBefore : Option Hook := none
  onAfter : Option Hook := none
  onError : Option Hook := none
  onGet : Option Hook := none
  onSet : Option Hook := none
  onDefine : Option Hook := none
  onDelete : Option Hook := none
  onHas : Option Hook := none
  onCall : Option Hook := none
  onConstruct : Option Hook := none
  interceptGet : Option (Ctx → JSValue) := none
  interceptSet : Option (Ctx → JSValue) := none
  interceptCall : Option (Ctx → JSValue) := none
  interceptConstruct : Option (Ctx → JSValue) := none
  modifyArgs : Option (Ctx → JSValue) := none
  modifyResult : Option (Ctx → JSValue) := none
  modifyGetResult : Option (Ctx → JSValue) := none
  modifySetResult : Option (Ctx → JSValue) := none
  modifyHasResult : Option (Ctx → JSValue) := none
  modifyOwnKeysResult : Option (Ctx → JSValue) := none
  modifyDescriptorResult : Option (Ctx → JSValue) := none
  modifyPrototypeResult : Option (Ctx → JSValue) := none
  modifyDeleteResult : Option (Ctx → JSValue) := none
  modifyDefineResult : Option (Ctx → JSValue) := none
  replaceFunction : Option (Ctx → Option FnLike) := none
  shouldIntercept : Option (Ctx → JSValue) := none
  enableTiming : Bool := false
  enableStackTrace : Bool := false
  extraKinds : List (String × KindProfile) := []

/-- The options object passed to `watch`: every recognized key, each
`none` when absent, plus unrecognized keys (spread through unchanged). -/
structure OptionsObj where
  debug : Option DebugCfg := none
  log : Option Bool := none
  logLevel : Option String := none
  onBefore : Option Hook := none
  onAfter : Option Hook := none
  onError : Option Hook := none
  onGet : Option Hook := none
  onSet : Option Hook := none
  onDefine : Option Hook := none
  onDelete : Option Hook := none
  onHas : Option Hook := none
  onCall : Option Hook := none
  onConstruct : Option Hook := none
  interceptGet : Option (Ctx → JSValue) := none
  interceptSet : Option (Ctx → JSValue) := none
  interceptCall : Option (Ctx → JSValue) := none
  interceptConstruct : Option (Ctx → JSValue) := none
  modifyArgs : Option (Ctx → JSValue) := none
  modifyResult : Option (Ctx → JSValue) := none
  modifyGetResult : Option (Ctx → JSValue) := none
  modifySetResult : Option (Ctx → JSValue) := none
  modifyHasResult : Option (Ctx → JSValue) := none
  modifyOwnKeysResult : Option (Ctx → JSValue) := none
  modifyDescriptorResult : Option (Ctx → JSValue) := none
  modifyPrototypeResult : Option (Ctx → JSValue) := none
  modifyDeleteResult : Option (Ctx → JSValue) := none
  modifyDefineResult : Option (Ctx → JSValue) := none
  replaceFunction : Option (Ctx → Option FnLike) := none
  shouldIntercept : Option (Ctx → JSValue) := none
  enableTiming : Option Bool := none
  enableStackTrace : Option Bool := none
  extraKinds : List (String × KindProfile) := []

/-- Argument of `watch`: the legacy boolean shape or an options object
(`_normalizeConfig` lines 164-167 branch on `typeof options`). -/
inductive RawOptions where
  | boolOpt (b : Bool) : RawOptions
  | objOpt (o : OptionsObj) : RawOptions

/-- `WatchManager._normalizeConfig` (lines 163-225): a boolean becomes
`{debug: b}`; otherwise the defaults are overridden by the supplied keys
(`{...defaults, ...options}`), unknown keys riding along unread. -/
def normalizeConfig : RawOptions → Config
  | .boolOpt b => { debug := .val (.bool b) }
  | .objOpt o =>
      { debug := o.debug.getD (.val (.bool false))
        log := o.log.getD true
        logLevel := o.logLevel.getD "info"
        onBefore := o.onBefore
        onAfter := o.onAfter
        onError := o.onError
        onGet := o.onGet
        onSet := o.onSet
        onDefine := o.onDefine
        onDelete := o.onDelete
        onHas := o.onHas
        onCall := o.onCall
        onConstruct := o.onConstruct
        interceptGet := o.interceptGet
        interceptSet := o.interceptSet
        interceptCall := o.interceptCall
        interceptConstruct := o.interceptConstruct
        modifyArgs := o.modifyArgs
        modifyResult := o.modifyResult
        modifyGetResult := o.modifyGetResult
        modifySetResult := o.modifySetResult
        modifyHasResult := o.modifyHasResult
        modifyOwnKeysResult := o.modifyOwnKeysResult
        modifyDescriptorResult := o.modifyDescriptorResult
        modifyPrototypeResult := o.modifyPrototypeResult
        modifyDeleteResult := o.modifyDeleteResult
        modifyDefineResult := o.modifyDefineResult
        replaceFunction := o.replaceFunction
        shouldIntercept := o.shouldIntercept
        enableTiming := o.enableTiming.getD false
        enableStackTrace := o.enableStackTrace.getD false
        extraKinds := o.extraKinds }

/-- `WatchManager._executeHook` (lines 687-695): a missing hook is a no-op;
a present hook runs and any fault it throws is caught and reported through
`console.error`, never propagated (`undefined` stands in for its value). -/
def execHook (hook : Option Hook) (ctx : Ctx) : JSValue × List Event :=
  match hook with
  | none => (.undefined, [])
  | some h =>
      match h ctx with
      | .ok v => (v, [.hookRun])
      | .error e => (.undefined, [.hookRun, .consoleError ("Hook execution error: " ++ e)])

/-- Loop body of `_executeGlobalInterceptors`: walks the registered list in
order; the index only labels which observer an event belongs to. -/
def execObserversFrom (idx : Nat) (obs : List Observer) (phase : String) (ctx : Ctx) :
    List Event :=
  match obs with
  | [] => []
  | ob :: rest =>
      (match ob phase ctx with
        | .ok _ => [Event.observerRun idx]
        | .error e => [Event.observerRun idx, .consoleError ("Global interceptor error: " ++ e)]) ++
      execObserversFrom (idx + 1) rest phase ctx

/-- `WatchManager._executeGlobalInterceptors` (lines 701-709): every
registered interceptor is invoked in order; a fault in one is caught and
reported without suppressing the rest. -/
def execGlobalObservers (obs : List Observer) (phase : String) (ctx : Ctx) : List Event :=
  execObserversFrom 0 obs phase ctx

/-- `WatchManager._conditionalDebugger` (lines 715-723): a predicate is
evaluated on the context, any other value is tested for truthiness; a hit
triggers a `debugger` break as a pure side effect. -/
def conditionalDebugger (dbg : DebugCfg) (ctx : Ctx) : List Event :=
  match dbg with
  | .pred f => if truthy (f ctx) then [.debuggerBreak] else []
  | .val v => if truthy v then [.debuggerBreak] else []

/-- Severity table of `_log` (line 733). -/
def logLevels (s : String) : Option Nat :=
  match s with
  | "debug" => some 0
  | "info" => some 1
  | "warn" => some 2
  | "error" => some 3
  | _ => none

/-- The expression `logLevels[x] || 1` of `_log` (lines 734-735): an absent
level and the falsy level number 0 both collapse to 1. -/
def levelOr1 (o : Option Nat) : Nat :=
  match o with
  | some n => if n = 0 then 1 else n
  | none => 1

/-- `WatchManager._log` (lines 729-740).  The source resolves the
configuration by looking the context's target up in the registry; `cfg?` is
that lookup's outcome: `none` both when `data.target` is absent (as in the
catch blocks, whose data is the un-spread record with context and error)
and when the target is no longer registered, in which case nothing is
emitted. -/
def logLine (cfg? : Option Config) (level msg : String) : List Event :=
  match cfg? with
  | none => []
  | some cfg =>
      if !cfg.log then []
      else
        let currentLevel := levelOr1 (logLevels cfg.logLevel)
        let messageLevel := levelOr1 (logLevels level)
        if currentLevel ≤ messageLevel then [.consoleLog level msg] else []

/-- True when a configured conditional gate evaluates falsy on the given
context, which makes the interceptor delegate directly (the gate check of
lines 263, 345, 401 and 457). -/
def gateBlocks (cfg : Config) (ctx : Ctx) : Bool :=
  match cfg.shouldIntercept with
  | some g => !(truthy (g ctx))
  | none => false

/-- `WatchManager._createContext` (lines 669-681): tag and timestamp over
the kind-specific payload, with a call stack captured only when the
session's configuration enables it. -/
def createContext (cfg : Config) (type : String) (now : Nat) (data : Ctx) : Ctx :=
  let ctx := { data with type := type, timestamp := now }
  if cfg.enableStackTrace then { ctx with stackCaptured := true } else ctx

/-- List of arguments denoted by the value `finalArgs` holds at delegation
(`Reflect.apply` requires an array-like; anything else faults). -/
def argsFromValue : JSValue → Except String (List JSValue)
  | .arr xs => .ok xs
  | _ => .error "TypeError: CreateListFromArrayLike called on non-object"

/-- Duration recorded by the timing bracket (lines 302, 313): the model's
single clock makes the start and end reads coincide, so an enabled, nonzero
clock yields duration 0 and a zero clock is falsy at the start read. -/
def timedDuration (cfg : Config) (now : Nat) : Option Nat :=
  if cfg.enableTiming && now ≠ 0 then some 0 else none

/-- Catch block shared by the four rich interceptors (for example lines
324-328): run the error hook on the enriched context, attempt an error log
line (which never emits, because the log data there carries the context
nested rather than spread, so the registry lookup finds no target), then
rethrow. -/
def richCatch (cfg : Config) (context : Ctx) (err : String) (es : List Event) :
    Except String JSValue × List Event :=
  let r1 := execHook cfg.onError { context with error := some err }
  let el := logLine none "error" "operation error"
  (.error err, es ++ r1.2 ++ el)

/-- Base context of `_createApplyInterceptor` (lines 255-260). -/
def applyBaseCtx (cfg : Config) (tgt : JSValue) (fnName : String)
    (thisArg : JSValue) (args : List JSValue) (now : Nat) : Ctx :=
  createContext cfg "apply" now
    { target := some tgt, thisArg := some thisArg, args := some args,
      property := some (strOr fnName "anonymous") }

/-- `WatchManager._createApplyInterceptor` (lines 253-330). -/
def applyInterceptor (cfg : Config) (obs : List Observer) (now : Nat)
    (fn : FnTarget) (tgt : JSValue) (thisArg : JSValue) (argumentsList : List JSValue) :
    Except String JSValue × List Event :=
  let context := applyBaseCtx cfg tgt fn.name thisArg argumentsList now
  if gateBlocks cfg context then
    (fn.call thisArg argumentsList, [])
  else
    let r1 := execHook cfg.onBefore context
    let r2 := execHook cfg.onCall context
    let e3 := execGlobalObservers obs "before" context
    let e4 := conditionalDebugger cfg.debug context
    let es0 := r1.2 ++ r2.2 ++ e3 ++ e4
    let iRes : Option JSValue :=
      match cfg.interceptCall with
      | some ic => let r := ic context; if isUndefined r then none else some r
      | none => none
    match iRes with
    | some r =>
        let r5 := execHook cfg.onAfter { context with result := some r }
        (.ok r, es0 ++ r5.2)
    | none =>
        let repl : Option FnLike :=
          match cfg.replaceFunction with
          | some rf => rf context
          | none => none
        match repl with
        | some replacement =>
            match replacement thisArg argumentsList with
            | .ok result =>
                let r5 := execHook cfg.onAfter
                  { context with result := some result, replaced := some true }
                (.ok result, es0 ++ r5.2)
            | .error err => richCatch cfg context err es0
        | none =>
            let finalArgsVal : JSValue :=
              match cfg.modifyArgs with
              | some m => jsOr (m context) (.arr argumentsList)
              | none => .arr argumentsList
            match argsFromValue finalArgsVal with
            | .error err => richCatch cfg context err es0
            | .ok finalArgs =>
                match fn.call thisArg finalArgs with
                | .error err => richCatch cfg context err es0
                | .ok r0 =>
                    let result :=
                      match cfg.modifyResult with
                      | some m =>
                          jsOr (m { context with result := some r0, args := some finalArgs }) r0
                      | none => r0
                    let afterContext :=
                      { context with
                        result := some result, args := some finalArgs,
                        duration := timedDuration cfg now }
                    let r5 := execHook cfg.onAfter afterContext
                    let e6 := execGlobalObservers obs "after" afterContext
                    let e7 := logLine (some cfg) "debug" "Function called"
                    (.ok result, es0 ++ r5.2 ++ e6 ++ e7)

/-- Base context of `_createConstructInterceptor` (lines 338-343). -/
def constructBaseCtx (cfg : Config) (tgt : JSValue) (fnName : String)
    (args : List JSValue) (newTarget : JSValue) (now : Nat) : Ctx :=
  createContext cfg "construct" now
    { target := some tgt, args := some args, newTarget := some newTarget,
      property := some (strOr fnName "anonymous") }

/-- `WatchManager._createConstructInterceptor` (lines 336-387). -/
def constructInterceptor (cfg : Config) (obs : List Observer) (now : Nat)
    (fn : FnTarget) (tgt : JSValue) (argumentsList : List JSValue) (newTarget : JSValue) :
    Except String JSValue × List Event :=
  let context := constructBaseCtx cfg tgt fn.name argumentsList newTarget now
  if gateBlocks cfg context then
    (fn.construct argumentsList newTarget, [])
  else
    let r1 := execHook cfg.onBefore context
    let r2 := execHook cfg.onConstruct context
    let e3 := execGlobalObservers obs "before" context
    let e4 := conditionalDebugger cfg.debug context
    let es0 := r1.2 ++ r2.2 ++ e3 ++ e4
    let iRes : Option JSValue :=
      match cfg.interceptConstruct with
      | some ic => let r := ic context; if isUndefined r then none else some r
      | none => none
    match iRes with
    | some r =>
        let r5 := execHook cfg.onAfter { context with instanceV := some r }
        (.ok r, es0 ++ r5.2)
    | none =>
        let finalArgsVal : JSValue :=
          match cfg.modifyArgs with
          | some m => jsOr (m context) (.arr argumentsList)
          | none => .arr argumentsList
        match argsFromValue finalArgsVal with
        | .error err => richCatch cfg context err es0
        | .ok finalArgs =>
            match fn.construct finalArgs newTarget with
            | .error err => richCatch cfg context err es0
            | .ok inst =>
                let afterContext :=
                  { context with
                    instanceV := some inst, args := some finalArgs,
                    duration := timedDuration cfg now }
                let r5 := execHook cfg.onAfter afterContext
                let e6 := execGlobalObservers obs "after" afterContext
                let e7 := logLine (some cfg) "debug" "Constructor called"
                (.ok inst, es0 ++ r5.2 ++ e6 ++ e7)

/-- Base context of `_createGetInterceptor` (lines 395-399). -/
def getBaseCtx (cfg : Config) (tgt : JSValue) (property : String)
    (receiver : JSValue) (now : Nat) : Ctx :=
  createContext cfg "get" now
    { target := some tgt, property := some property, receiver := some receiver }

/-- `WatchManager._createGetInterceptor` (lines 393-440); total because the
modelled `Reflect.get` and the modelled callbacks cannot throw, so the
fault boundary of lines 434-438 is never exercised. -/
def getInterceptor (cfg : Config) (obs : List Observer) (now : Nat)
    (s : ObjState) (tgt : JSValue) (property : String) (receiver : JSValue) :
    JSValue × List Event :=
  let context := getBaseCtx cfg tgt property receiver now
  if gateBlocks cfg context then
    (reflectGet s property, [])
  else
    let r1 := execHook cfg.onBefore context
    let r2 := execHook cfg.onGet context
    let e3 := execGlobalObservers obs "before" context
    let e4 := conditionalDebugger cfg.debug context
    let es0 := r1.2 ++ r2.2 ++ e3 ++ e4
    let iRes : Option JSValue :=
      match cfg.interceptGet with
      | some ig => let r := ig context; if isUndefined r then none else some r
      | none => none
    match iRes with
    | some r =>
        let r5 := execHook cfg.onAfter { context with value := some r }
        (r, es0 ++ r5.2)
    | none =>
        let v0 := reflectGet s property
        let value :=
          match cfg.modifyGetResult with
          | some m => jsOr (m { context with value := some v0 }) v0
          | none => v0
        let afterContext := { context with value := some value }
        let r5 := execHook cfg.onAfter afterContext
        let e6 := execGlobalObservers obs "after" afterContext
        let e7 := logLine (some cfg) "debug" "Property accessed"
        (value, es0 ++ r5.2 ++ e6 ++ e7)

/-- Base context of `_createSetInterceptor` (lines 448-455); the old value
is read from the target before the gate is consulted. -/
def setBaseCtx (cfg : Config) (s : ObjState) (tgt : JSValue) (property : String)
    (value : JSValue) (receiver : JSValue) (now : Nat) : Ctx :=
  createContext cfg "set" now
    { target := some tgt, property := some property,
      oldValue := some (reflectGet s property), newValue := some value,
      receiver := some receiver }

/-- `WatchManager._createSetInterceptor` (lines 446-505): a boolean from the
full override short-circuits; otherwise `modifySetResult` is consulted on a
predicted success and a verdict strictly equal to false vetoes delegation. -/
def setInterceptor (cfg : Config) (obs : List Observer) (now : Nat)
    (s : ObjState) (tgt : JSValue) (property : String) (value : JSValue) (receiver : JSValue) :
    Bool × ObjState × List Event :=
  let context := setBaseCtx cfg s tgt property value receiver now
  if gateBlocks cfg context then
    let d := reflectSet s property value
    (d.1, d.2, [])
  else
    let r1 := execHook cfg.onBefore context
    let r2 := execHook cfg.onSet context
    let e3 := execGlobalObservers obs "before" context
    let e4 := conditionalDebugger cfg.debug context
    let es0 := r1.2 ++ r2.2 ++ e3 ++ e4
    let iRes : Option Bool :=
      match cfg.interceptSet with
      | some f =>
          match f context with
          | .bool b => some b
          | _ => none
      | none => none
    match iRes with
    | some b =>
        let r5 := execHook cfg.onAfter { context with success := some b }
        (b, s, es0 ++ r5.2)
    | none =>
        let shouldSet : Bool :=
          match cfg.modifySetResult with
          | some m => !strictlyFalse (m { context with success := some true })
          | none => true
        let d := if shouldSet then reflectSet s property value else (false, s)
        let afterContext := { context with success := some d.1 }
        let r5 := execHook cfg.onAfter afterContext
        let e6 := execGlobalObservers obs "after" afterContext
        let e7 := logLine (some cfg) "debug" "Property set"
        (d.1, d.2, es0 ++ r5.2 ++ e6 ++ e7)

/-- Base context of `_createDefinePropertyInterceptor` (line 510). -/
def defineBaseCtx (cfg : Config) (tgt : JSValue) (property : String)
    (descriptor : JSValue) (now : Nat) : Ctx :=
  createContext cfg "defineProperty" now
    { target := some tgt, property := some property, descriptor := some descriptor }

/-- `WatchManager._createDefinePropertyInterceptor` (lines 508-535): no
conditional gate and no global observers; `modifyDefineResult` is consulted
on a predicted success and a strict-false verdict vetoes delegation. -/
def definePropertyInterceptor (cfg : Config) (now : Nat)
    (s : ObjState) (tgt : JSValue) (property : String) (descriptor : JSValue) :
    Bool × ObjState × List Event :=
  let context := defineBaseCtx cfg tgt property descriptor now
  let r1 := execHook cfg.onBefore context
  let r2 := execHook cfg.onDefine context
  let e3 := conditionalDebugger cfg.debug context
  let shouldDefine : Bool :=
    match cfg.modifyDefineResult with
    | some m => !strictlyFalse (m { context with success := some true })
    | none => true
  let d := if shouldDefine then reflectDefineProperty s property descriptor else (false, s)
  let r4 := execHook cfg.onAfter { context with success := some d.1 }
  let e5 := logLine (some cfg) "debug" "Property defined"
  (d.1, d.2, r1.2 ++ r2.2 ++ e3 ++ r4.2 ++ e5)

/-- Base context of `_createDeletePropertyInterceptor` (lines 539-540); the
prior value is read from the target first. -/
def deleteBaseCtx (cfg : Config) (s : ObjState) (tgt : JSValue) (property : String)
    (now : Nat) : Ctx :=
  createContext cfg "deleteProperty" now
    { target := some tgt, property := some property,
      deletedValue := some (reflectGet s property) }

/-- `WatchManager._createDeletePropertyInterceptor` (lines 537-565): no
conditional gate and no global observers; `modifyDeleteResult` is consulted
on a predicted success and a strict-false verdict vetoes delegation. -/
def deletePropertyInterceptor (cfg : Config) (now : Nat)
    (s : ObjState) (tgt : JSValue) (property : String) :
    Bool × ObjState × List Event :=
  let context := deleteBaseCtx cfg s tgt property now
  let r1 := execHook cfg.onBefore context
  let r2 := execHook cfg.onDelete context
  let e3 := conditionalDebugger cfg.debug context
  let shouldDelete : Bool :=
    match cfg.modifyDeleteResult with
    | some m => !strictlyFalse (m { context with success := some true })
    | none => true
  let d := if shouldDelete then reflectDelete s property else (false, s)
  let r4 := execHook cfg.onAfter { context with success := some d.1 }
  let e5 := logLine (some cfg) "debug" "Property deleted"
  (d.1, d.2, r1.2 ++ r2.2 ++ e3 ++ r4.2 ++ e5)

/-- Base context of `_createHasInterceptor` (line 569). -/
def hasBaseCtx (cfg : Config) (tgt : JSValue) (property : String) (now : Nat) : Ctx :=
  createContext cfg "has" now { target := some tgt, property := some property }

/-- `WatchManager._createHasInterceptor` (lines 567-584): no gate, no
debugger, no observers; the modifier's verdict only replaces the delegated
boolean when truthy (`modifyHasResult(...) || result`). -/
def hasInterceptor (cfg : Config) (now : Nat)
    (s : ObjState) (tgt : JSValue) (property : String) : JSValue × List Event :=
  let context := hasBaseCtx cfg tgt property now
  let r1 := execHook cfg.onBefore context
  let r2 := execHook cfg.onHas context
  let r0 := JSValue.bool (reflectHas s property)
  let result :=
    match cfg.modifyHasResult with
    | some m => jsOr (m { context with propExists := some r0 }) r0
    | none => r0
  let r3 := execHook cfg.onAfter { context with propExists := some result }
  let e4 := logLine (some cfg) "debug" "Property existence checked"
  (result, r1.2 ++ r2.2 ++ r3.2 ++ e4)

/-- Base context of `_createOwnKeysInterceptor` (line 589). -/
def ownKeysBaseCtx (cfg : Config) (tgt : JSValue) (now : Nat) : Ctx :=
  createContext cfg "ownKeys" now { target := some tgt }

/-- `WatchManager._createOwnKeysInterceptor` (lines 587-603). -/
def ownKeysInterceptor (cfg : Config) (now : Nat)
    (s : ObjState) (tgt : JSValue) : JSValue × List Event :=
  let context := ownKeysBaseCtx cfg tgt now
  let r1 := execHook cfg.onBefore context
  let r0 := JSValue.arr ((reflectOwnKeys s).map JSValue.str)
  let result :=
    match cfg.modifyOwnKeysResult with
    | some m => jsOr (m { context with keys := some r0 }) r0
    | none => r0
  let r2 := execHook cfg.onAfter { context with keys := some result }
  let e3 := logLine (some cfg) "debug" "Own keys accessed"
  (result, r1.2 ++ r2.2 ++ e3)

/-- Base context of `_createGetOwnPropertyDescriptorInterceptor` (line 607). -/
def getDescBaseCtx (cfg : Config) (tgt : JSValue) (property : String) (now : Nat) : Ctx :=
  createContext cfg "getOwnPropertyDescriptor" now
    { target := some tgt, property := some property }

/-- `WatchManager._createGetOwnPropertyDescriptorInterceptor`
(lines 605-621). -/
def getOwnPropertyDescriptorInterceptor (cfg : Config) (now : Nat)
    (s : ObjState) (tgt : JSValue) (property : String) : JSValue × List Event :=
  let context := getDescBaseCtx cfg tgt property now
  let r1 := execHook cfg.onBefore context
  let r0 := reflectGetOwnPropertyDescriptor s property
  let result :=
    match cfg.modifyDescriptorResult with
    | some m => jsOr (m { context with descriptor := some r0 }) r0
    | none => r0
  let r2 := execHook cfg.onAfter { context with descriptor := some result }
  let e3 := logLine (some cfg) "debug" "Property descriptor accessed"
  (result, r1.2 ++ r2.2 ++ e3)

/-- Base context of `_createGetPrototypeOfInterceptor` (line 625). -/
def getProtoBaseCtx (cfg : Config) (tgt : JSValue) (now : Nat) : Ctx :=
  createContext cfg "getPrototypeOf" now { target := some tgt }

/-- `WatchManager._createGetPrototypeOfInterceptor` (lines 623-639). -/
def getPrototypeOfInterceptor (cfg : Config) (now : Nat)
    (s : ObjState) (tgt : JSValue) : JSValue × List Event :=
  let context := getProtoBaseCtx cfg tgt now
  let r1 := execHook cfg.onBefore context
  let r0 := s.proto
  let result :=
    match cfg.modifyPrototypeResult with
    | some m => jsOr (m { context with prototype := some r0 }) r0
    | none => r0
  let r2 := execHook cfg.onAfter { context with prototype := some result }
  let e3 := logLine (some cfg) "debug" "Prototype accessed"
  (result, r1.2 ++ r2.2 ++ e3)

/-- `WatchManager._createSetPrototypeOfInterceptor` (lines 641-647): bare
delegation plus a log line; no hooks of any kind. -/
def setPrototypeOfInterceptor (cfg : Config)
    (s : ObjState) (prototype : JSValue) : Bool × ObjState × List Event :=
  let d := reflectSetPrototypeOf s prototype
  (d.1, d.2, logLine (some cfg) "debug" "Prototype set")

/-- `WatchManager._createIsExtensibleInterceptor` (lines 649-655). -/
def isExtensibleInterceptor (cfg : Config) (s : ObjState) : Bool × List Event :=
  (s.extensible, logLine (some cfg) "debug" "Extensibility checked")

/-- `WatchManager._createPreventExtensionsInterceptor` (lines 657-663). -/
def preventExtensionsInterceptor (cfg : Config) (s : ObjState) :
    Bool × ObjState × List Event :=
  (true, { s with extensible := false }, logLine (some cfg) "debug" "Extensions prevented")

/-- A watchable entity: its identity, its property state and, when it is
invocable, its call behaviour.  The argument-type guard of `watch`
(lines 26-28) is satisfied by construction, since `Target` ranges exactly
over composite or invocable entities. -/
structure Target where
  id : Nat
  state : ObjState := {}
  fn : Option FnTarget := none

/-- One of the thirteen fundamental operations, with its payload.  The
receiver of access and mutate is the value the host passes to the trap. -/
inductive OpRequest where
  | get (p : String) (receiver : JSValue) : OpRequest
  | set (p : String) (v : JSValue) (receiver : JSValue) : OpRequest
  | defineProp (p : String) (d : JSValue) : OpRequest
  | deleteProp (p : String) : OpRequest
  | has (p : String) : OpRequest
  | ownKeys : OpRequest
  | getOwnDesc (p : String) : OpRequest
  | getProto : OpRequest
  | setProto (v : JSValue) : OpRequest
  | isExt : OpRequest
  | preventExt : OpRequest
  | apply (thisArg : JSValue) (args : List JSValue) : OpRequest
  | construct (args : List JSValue) (newTarget : JSValue) : OpRequest

/-- The fundamental operation performed directly on the target, without
any facade: plain Reflect semantics on the modelled state.  Boolean
outcomes are reported as boolean values; the pair carries the target state
after the operation. -/
def directOp (t : Target) (op : OpRequest) : Except String (JSValue × ObjState) :=
  match op with
  | .get p _ => .ok (reflectGet t.state p, t.state)
  | .set p v _ =>
      let d := reflectSet t.state p v
      .ok (.bool d.1, d.2)
  | .defineProp p d =>
      let r := reflectDefineProperty t.state p d
      .ok (.bool r.1, r.2)
  | .deleteProp p =>
      let r := reflectDelete t.state p
      .ok (.bool r.1, r.2)
  | .has p => .ok (.bool (reflectHas t.state p), t.state)
  | .ownKeys => .ok (.arr ((reflectOwnKeys t.state).map JSValue.str), t.state)
  | .getOwnDesc p => .ok (reflectGetOwnPropertyDescriptor t.state p, t.state)
  | .getProto => .ok (t.state.proto, t.state)
  | .setProto v =>
      let r := reflectSetPrototypeOf t.state v
      .ok (.bool r.1, r.2)
  | .isExt => .ok (.bool t.state.extensible, t.state)
  | .preventExt => .ok (.bool true, { t.state with extensible := false })
  | .apply thisArg args =>
      match t.fn with
      | some f => (f.call thisArg args).map (fun v => (v, t.state))
      | none => .error "TypeError: target is not a function"
  | .construct args newTarget =>
      match t.fn with
      | some f => (f.construct args newTarget).map (fun v => (v, t.state))
      | none => .error "TypeError: target is not a constructor"

/-- The handler table installed by `Proxy.revocable` (lines 40-67): each
fundamental operation on the live facade runs the interceptor pipeline of
its kind for the session's configuration.  Applying or constructing a
non-invocable target faults in the host before any trap runs. -/
def interceptOp (cfg : Config) (obs : List Observer) (now : Nat) (t : Target)
    (op : OpRequest) : Except String (JSValue × ObjState) × List Event :=
  match op with
  | .get p receiver =>
      let r := getInterceptor cfg obs now t.state (.ref t.id) p receiver
      (.ok (r.1, t.state), r.2)
  | .set p v receiver =>
      let r := setInterceptor cfg obs now t.state (.ref t.id) p v receiver
      (.ok (.bool r.1, r.2.1), r.2.2)
  | .defineProp p d =>
      let r := definePropertyInterceptor cfg now t.state (.ref t.id) p d
      (.ok (.bool r.1, r.2.1), r.2.2)
  | .deleteProp p =>
      let r := deletePropertyInterceptor cfg now t.state (.ref t.id) p
      (.ok (.bool r.1, r.2.1), r.2.2)
  | .has p =>
      let r := hasInterceptor cfg now t.state (.ref t.id) p
      (.ok (r.1, t.state), r.2)
  | .ownKeys =>
      let r := ownKeysInterceptor cfg now t.state (.ref t.id)
      (.ok (r.1, t.state), r.2)
  | .getOwnDesc p =>
      let r := getOwnPropertyDescriptorInterceptor cfg now t.state (.ref t.id) p
      (.ok (r.1, t.state), r.2)
  | .getProto =>
      let r := getPrototypeOfInterceptor cfg now t.state (.ref t.id)
      (.ok (r.1, t.state), r.2)
  | .setProto v =>
      let r := setPrototypeOfInterceptor cfg t.state v
      (.ok (.bool r.1, r.2.1), r.2.2)
  | .isExt =>
      let r := isExtensibleInterceptor cfg t.state
      (.ok (.bool r.1, t.state), r.2)
  | .preventExt =>
      let r := preventExtensionsInterceptor cfg t.state
      (.ok (.bool r.1, r.2.1), r.2.2)
  | .apply thisArg args =>
      match t.fn with
      | some f =>
          let r := applyInterceptor cfg obs now f (.ref t.id) thisArg args
          (r.1.map (fun v => (v, t.state)), r.2)
      | none => (.error "TypeError: target is not a function", [])
  | .construct args newTarget =>
      match t.fn with
      | some f =>
          let r := constructInterceptor cfg obs now f (.ref t.id) args newTarget
          (r.1.map (fun v => (v, t.state)), r.2)
      | none => (.error "TypeError: target is not a constructor", [])

/-- The per-session record stored in `watchedObjects` (lines 72-79);
revocation is modelled by the manager-level revoked set. -/
structure WatchInfo where
  target : Nat
  proxy : Nat
  config : Config
  name : Option String

/-- Process-wide state of the `WatchManager` instance (constructor, lines
7-16), together with the host-side bookkeeping the embedding needs: the
proxy-identity allocator and the set of revoked proxies. -/
structure ManagerState where
  watchedObjects : List (Nat × WatchInfo) := []
  namedObjects : List (String × (Nat × Nat)) := []
  proxyMetadata : List (Nat × Nat) := []
  globalInterceptors : List Observer := []
  nextProxyId : Nat := 1
  revokedProxies : List Nat := []

/-- Removal of a key from a modelled map keyed by identity. -/
def removeKeyN (k : Nat) : List (Nat × α) → List (Nat × α)
  | [] => []
  | e :: es => if e.1 = k then removeKeyN k es else e :: removeKeyN k es

/-- Removal of a key from a modelled map keyed by name. -/
def removeKeyS (k : String) : List (String × α) → List (String × α)
  | [] => []
  | e :: es => if e.1 = k then removeKeyS k es else e :: removeKeyS k es

/-- `WatchManager.watch` (lines 25-90) for a well-typed target: an already
watched target produces a warning and the existing facade with no state
change; otherwise a fresh facade identity is allocated, the session is
registered under the target (and under the name when given, overwriting a
previous binding of that name), and a start log line is attempted with the
just-registered configuration. -/
def watch (st : ManagerState) (t : Target) (options : RawOptions)
    (name : Option String) : Nat × ManagerState × List Event :=
  match st.watchedObjects.lookup t.id with
  | some info => (info.proxy, st, [.consoleWarn "Object is already being watched"])
  | none =>
      let config := normalizeConfig options
      let proxy := st.nextProxyId
      let info : WatchInfo := { target := t.id, proxy := proxy, config := config, name := name }
      let st' : ManagerState :=
        { st with
          watchedObjects := (t.id, info) :: st.watchedObjects,
          proxyMetadata := (proxy, t.id) :: st.proxyMetadata,
          namedObjects :=
            match name with
            | some n => (n, (t.id, proxy)) :: removeKeyS n st.namedObjects
            | none => st.namedObjects,
          nextProxyId := st.nextProxyId + 1 }
      let msg := "Started watching " ++ strOr (name.getD "") "object"
      (proxy, st', logLine (some config) "info" msg)

/-- Session resolution as `unwatch` performs it (lines 100-117): by name
through `namedObjects`, or by reverse lookup of a facade through
`proxyMetadata`; any other value resolves to nothing. -/
def resolveSession (st : ManagerState) (proxyOrName : JSValue) : Option WatchInfo :=
  match proxyOrName with
  | .str n =>
      match st.namedObjects.lookup n with
      | some pr => st.watchedObjects.lookup pr.1
      | none => none
  | .ref pid =>
      match st.proxyMetadata.lookup pid with
      | some tid => st.watchedObjects.lookup tid
      | none => none
  | _ => none

/-- Revocation and registry cleanup of `unwatch` (lines 126-134). -/
def unwatchErase (st : ManagerState) (info : WatchInfo) : ManagerState :=
  { st with
    watchedObjects := removeKeyN info.target st.watchedObjects,
    proxyMetadata := removeKeyN info.proxy st.proxyMetadata,
    namedObjects :=
      match info.name with
      | some n => removeKeyS n st.namedObjects
      | none => st.namedObjects,
    revokedProxies := info.proxy :: st.revokedProxies }

/-- `WatchManager.unwatch` (lines 97-138).  An unknown name warns and
returns null; a non-facade entity warns and returns the entity itself
(line 115); a resolved session is revoked, erased from every registry map,
and the original target reference is returned.  The closing log line
(line 136) looks the target up after the registry entry was deleted, finds
no configuration, and therefore emits nothing. -/
def unwatch (st : ManagerState) (proxyOrName : JSValue) :
    JSValue × ManagerState × List Event :=
  match proxyOrName with
  | .str n =>
      match st.namedObjects.lookup n with
      | none => (.null, st, [.consoleWarn ("No watched object found with name: " ++ n)])
      | some pr =>
          match st.watchedObjects.lookup pr.1 with
          | none => (.null, st, [.consoleWarn "Object is not being watched"])
          | some info =>
              (.ref info.target, unwatchErase st info, [])
  | .ref pid =>
      match st.proxyMetadata.lookup pid with
      | none => (proxyOrName, st, [.consoleWarn "Object is not being watched"])
      | some tid =>
          match st.watchedObjects.lookup tid with
          | none => (.null, st, [.consoleWarn "Object is not being watched"])
          | some info =>
              (.ref info.target, unwatchErase st info, [])
  | v => (v, st, [.consoleWarn "Object is not being watched"])

/-- `WatchManager.addGlobalInterceptor` (lines 144-146). -/
def addGlobalInterceptor (st : ManagerState) (ob : Observer) : ManagerState :=
  { st with globalInterceptors := st.globalInterceptors ++ [ob] }

/-- A fundamental operation performed on a facade: a revoked facade faults
in the host before any handler runs (and emits nothing); a live facade runs
the pipeline of the operation's kind with the configuration captured at
install time. -/
def facadeOp (revoked : List Nat) (cfg : Config) (obs : List Observer)
    (proxyId : Nat) (t : Target) (op : OpRequest) (now : Nat) :
    Except String (JSValue × ObjState) × List Event :=
  if proxyId ∈ revoked then
    (.error "TypeError: Cannot perform operation on a revoked proxy", [])
  else
    interceptOp cfg obs now t op

/-- The options object of `install(T, emptyConfig)`: no key supplied. -/
def emptyOptions : RawOptions := .objOpt {}

/-- The configuration a session installed with no options runs under. -/
def emptyConfig : Config := normalizeConfig emptyOptions

/-- The value delegation plus result modification produce in the access
pipeline (lines 421-426), shared by the branch characterization below. -/
def getModifiedValue (cfg : Config) (s : ObjState) (tgt : JSValue)
    (property : String) (receiver : JSValue) (now : Nat) : JSValue :=
  match cfg.modifyGetResult with
  | some m =>
      jsOr (m { getBaseCtx cfg tgt property receiver now with
                value := some (reflectGet s property) }) (reflectGet s property)
  | none => reflectGet s property

/-- Whether the delete pipeline proceeds to delegation (lines 546-552). -/
def deleteAllowed (cfg : Config) (s : ObjState) (tgt : JSValue)
    (property : String) (now : Nat) : Bool :=
  match cfg.modifyDeleteResult with
  | some m => !strictlyFalse (m { deleteBaseCtx cfg s tgt property now with success := some true })
  | none => true

/-- A sample watched state holding one property, the mapping with a = 1. -/
def sampleState : ObjState := { props := [("a", .num 1)] }

/-- A sample composite target over `sampleState`. -/
def sampleTarget : Target := { id := 0, state := sampleState }

/-- A sample invocable returning how many arguments it received. -/
def lenFn : FnTarget :=
  { name := "f",
    call := fun _ args => .ok (.num (args.length : Int)),
    construct := fun args _ => .ok (.num (args.length : Int)) }

/-- A sample invocable target built over `lenFn`. -/
def lenTarget : Target := { id := 0, fn := some lenFn }

/-- A configuration whose delete-result modifier vetoes the key a. -/
def vetoDeleteConfig : Config :=
  { emptyConfig with
    modifyDeleteResult := some (fun c => if c.property = some "a" then .bool false else .bool true) }

/-- A configuration whose set-result modifier vetoes every mutation. -/
def vetoSetConfig : Config :=
  { emptyConfig with modifySetResult := some (fun _ => .bool false) }

/-- A configuration whose define-result modifier vetoes every definition. -/
def vetoDefineConfig : Config :=
  { emptyConfig with modifyDefineResult := some (fun _ => .bool false) }

/-- A configuration with an always-false conditional gate and a delete
hook, to observe whether the gate is consulted for the delete kind. -/
def gateFalseDeleteConfig : Config :=
  { emptyConfig with
    shouldIntercept := some (fun _ => .bool false),
    onDelete := some (fun _ => .ok .undefined) }

/-- A configuration with an always-false conditional gate. -/
def gateFalseConfig : Config :=
  { emptyConfig with shouldIntercept := some (fun _ => .bool false) }

/-- A configuration whose argument modifier returns an empty list. -/
def emptyArgsConfig : Config :=
  { emptyConfig with modifyArgs := some (fun _ => .arr []) }

/-- A configuration whose argument modifier returns undefined. -/
def undefArgsConfig : Config :=
  { emptyConfig with modifyArgs := some (fun _ => .undefined) }

/-- The reduced backward-compatible shape of the CLI usage text: a per-kind
profile under the key get whose result modifier forces the string X. -/
def reducedGetOptions : RawOptions :=
  .objOpt
    { extraKinds :=
        [("get",
          { log := some true, debuggerCfg := some (.bool false),
            onModResult := some (fun _ => .str "X") })] }

/-- The rich configuration equivalent to `reducedGetOptions`. -/
def richGetOptions : RawOptions :=
  .objOpt { modifyGetResult := some (fun _ => .str "X") }

/-- A configuration whose has-result modifier answers false. -/
def hasVetoConfig : Config :=
  { emptyConfig with modifyHasResult := some (fun _ => .bool false) }

/-- A configuration whose access-result modifier answers false. -/
def getFalsyConfig : Config :=
  { emptyConfig with modifyGetResult := some (fun _ => .bool false) }

/-- A hook that always throws. -/
def throwingHook : Hook := fun _ => .error "boom"

/-- A global observer that always throws. -/
def throwingObserver : Observer := fun _ _ => .error "boom"

/-- A global observer that returns normally. -/
def okObserver : Observer := fun _ _ => .ok .undefined

/-- Looking up a key just removed from a registry map finds nothing. -/
theorem lookup_removeKeyN {α : Type} (k : Nat) (l : List (Nat × α)) :
    (removeKeyN k l).lookup k = none := by
  induction l with
  | nil => rfl
  | cons e es ih =>
      rcases e with ⟨k', v⟩
      by_cases h : k' = k
      · simpa [removeKeyN, h] using ih
      · have hne : (k == k') = false := beq_eq_false_iff_ne.mpr (Ne.symm h)
        simpa [removeKeyN, h, List.lookup, hne] using ih

/-- Every registered observer receives its invocation, whatever any
observer in front of it returned or threw. -/
theorem observerRun_mem_execObserversFrom (obs : List Observer) (phase : String) (ctx : Ctx) :
    ∀ (start i : Nat), i < obs.length →
      Event.observerRun (start + i) ∈ execObserversFrom start obs phase ctx := by
  induction obs with
  | nil => intro start i h; exact absurd h (by simp)
  | cons ob rest ih =>
      intro start i h
      cases i with
      | zero =>
          cases hr : ob phase ctx <;> simp [execObserversFrom, hr]
      | succ j =>
          have hj : j < rest.length := by simpa using h
          have hmem := ih (start + 1) j hj
          have harith : start + (j + 1) = (start + 1) + j := by omega
          rw [harith]
          cases hr : ob phase ctx <;>
            simp [execObserversFrom, hr, List.mem_append, hmem]

/-- The value an access pipeline returns, by the branch structure of the
interceptor: it never depends on the before/after/kind hooks, the error
hook, or the global observer list. -/
theorem getInterceptor_fst (cfg : Config) (obs : List Observer) (now : Nat)
    (s : ObjState) (tgt : JSValue) (property : String) (receiver : JSValue) :
    (getInterceptor cfg obs now s tgt property receiver).1 =
      (if gateBlocks cfg (getBaseCtx cfg tgt property receiver now) then reflectGet s property
       else
        match cfg.interceptGet with
        | some ig =>
            if isUndefined (ig (getBaseCtx cfg tgt property receiver now)) then
              getModifiedValue cfg s tgt property receiver now
            else ig (getBaseCtx cfg tgt property receiver now)
        | none => getModifiedValue cfg s tgt property receiver now) := by
  simp only [getInterceptor, getModifiedValue]
  cases hgb : gateBlocks cfg (getBaseCtx cfg tgt property receiver now)
  · simp only [hgb, Bool.false_eq_true, if_false]
    cases hig : cfg.interceptGet with
    | none => simp [hig]
    | some ig =>
        cases hu : isUndefined (ig (getBaseCtx cfg tgt property receiver now)) <;>
          simp [hig, hu]
  · simp [hgb]

/-- The reported outcome and the target state a delete pipeline produces,
independent of hooks. -/
theorem deletePropertyInterceptor_outcome (cfg : Config) (now : Nat)
    (s : ObjState) (tgt : JSValue) (property : String) :
    ((deletePropertyInterceptor cfg now s tgt property).1,
      (deletePropertyInterceptor cfg now s tgt property).2.1) =
      (if deleteAllowed cfg s tgt property now then reflectDelete s property
       else (false, s)) := by
  simp only [deletePropertyInterceptor, deleteAllowed]

/-- C3: a second install on a target that already has an active session
emits a warning diagnostic and returns the existing facade, with the
manager state unchanged: no new session, no configuration replacement, and
no fault (the operation is total and its value is fully determined). -/
theorem second_install_returns_existing_facade (st : ManagerState) (t : Target)
    (info : WatchInfo) (opts : RawOptions) (name : Option String)
    (h : st.watchedObjects.lookup t.id = some info) :
    watch st t opts name = (info.proxy, st, [.consoleWarn "Object is already being watched"]) := by
  simp [watch, h]

/-- C3 witness: reinstalling the sample target over a fresh manager. -/
theorem second_install_returns_existing_facade_witness :
    watch (watch ({} : ManagerState) sampleTarget emptyOptions none).2.1 sampleTarget
        (.boolOpt true) none =
      (1, (watch ({} : ManagerState) sampleTarget emptyOptions none).2.1,
        [.consoleWarn "Object is already being watched"]) :=
  second_install_returns_existing_facade _ sampleTarget
    { target := 0, proxy := 1, config := emptyConfig, name := none } (.boolOpt true) none rfl

/-- C5: for the three mutating kinds with an intrinsic success boolean, the
result modifier is consulted with a predicted success of true before
delegation; a verdict strictly equal to false skips delegation entirely,
reports false, and leaves the target state unchanged. -/
theorem predictive_veto_skips_delegation :
    (∀ (cfg : Config) (now : Nat) (s : ObjState) (tgt : JSValue) (p : String)
        (m : Ctx → JSValue),
      cfg.modifyDeleteResult = some m →
      m { deleteBaseCtx cfg s tgt p now with success := some true } = .bool false →
      (deletePropertyInterceptor cfg now s tgt p).1 = false ∧
        (deletePropertyInterceptor cfg now s tgt p).2.1 = s) ∧
    (∀ (cfg : Config) (now : Nat) (s : ObjState) (tgt : JSValue) (p : String)
        (d : JSValue) (m : Ctx → JSValue),
      cfg.modifyDefineResult = some m →
      m { defineBaseCtx cfg tgt p d now with success := some true } = .bool false →
      (definePropertyInterceptor cfg now s tgt p d).1 = false ∧
        (definePropertyInterceptor cfg now s tgt p d).2.1 = s) ∧
    (∀ (cfg : Config) (obs : List Observer) (now : Nat) (s : ObjState)
        (tgt v receiver : JSValue) (p : String) (m : Ctx → JSValue),
      cfg.shouldIntercept = none → cfg.interceptSet = none →
      cfg.modifySetResult = some m →
      m { setBaseCtx cfg s tgt p v receiver now with success := some true } = .bool false →
      (setInterceptor cfg obs now s tgt p v receiver).1 = false ∧
        (setInterceptor cfg obs now s tgt p v receiver).2.1 = s) := by
  refine ⟨?_, ?_, ?_⟩
  · intro cfg now s tgt p m hm hveto
    simp [deletePropertyInterceptor, hm, hveto, strictlyFalse]
  · intro cfg now s tgt p d m hm hveto
    simp [definePropertyInterceptor, hm, hveto, strictlyFalse]
  · intro cfg obs now s tgt v receiver p m hsi his hm hveto
    simp [setInterceptor, gateBlocks, hsi, his, hm, hveto, strictlyFalse]

/-- C5 witness: on the target with a = 1, a delete-result modifier vetoing
the key a makes the delete report false while the target still carries
a = 1; the set and define modifiers veto likewise. -/
theorem predictive_veto_skips_delegation_witness :
    ((deletePropertyInterceptor vetoDeleteConfig 0 sampleState (.ref 0) "a").1 = false ∧
      (deletePropertyInterceptor vetoDeleteConfig 0 sampleState (.ref 0) "a").2.1 = sampleState) ∧
    ((definePropertyInterceptor vetoDefineConfig 0 sampleState (.ref 0) "b" (.descVal (.num 2))).1 = false ∧
      (definePropertyInterceptor vetoDefineConfig 0 sampleState (.ref 0) "b" (.descVal (.num 2))).2.1 = sampleState) ∧
    ((setInterceptor vetoSetConfig [] 0 sampleState (.ref 0) "a" (.num 9) .undefined).1 = false ∧
      (setInterceptor vetoSetConfig [] 0 sampleState (.ref 0) "a" (.num 9) .undefined).2.1 = sampleState) ∧
    reflectGet (deletePropertyInterceptor vetoDeleteConfig 0 sampleState (.ref 0) "a").2.1 "a" = .num 1 :=
  ⟨predictive_veto_skips_delegation.1 vetoDeleteConfig 0 sampleState (.ref 0) "a" _ rfl rfl,
   predictive_veto_skips_delegation.2.1 vetoDefineConfig 0 sampleState (.ref 0) "b"
     (.descVal (.num 2)) _ rfl rfl,
   predictive_veto_skips_delegation.2.2 vetoSetConfig [] 0 sampleState (.ref 0)
     (.num 9) .undefined "a" _ rfl rfl rfl rfl,
   by
     rw [(predictive_veto_skips_delegation.1 vetoDeleteConfig 0 sampleState (.ref 0) "a" _ rfl rfl).2]
     rfl⟩

/-- C6 (amended): for invoke and construct, the argument modifier's return
value replaces the argument list used in delegation whenever it is truthy;
since an array is always truthy, this includes an empty list, which
replaces the arguments with an empty argument list.  Only a falsy return
(undefined, null, false and so on) keeps the original arguments. -/
theorem modify_args_truthy_replaces :
    (∀ (cfg : Config) (obs : List Observer) (now : Nat) (fn : FnTarget)
        (tgt thisArg : JSValue) (args : List JSValue) (m : Ctx → JSValue) (xs : List JSValue),
      cfg.shouldIntercept = none → cfg.interceptCall = none → cfg.replaceFunction = none →
      cfg.modifyResult = none → cfg.modifyArgs = some m →
      m (applyBaseCtx cfg tgt fn.name thisArg args now) = .arr xs →
      (applyInterceptor cfg obs now fn tgt thisArg args).1 = fn.call thisArg xs) ∧
    (∀ (cfg : Config) (obs : List Observer) (now : Nat) (fn : FnTarget)
        (tgt thisArg : JSValue) (args : List JSValue) (m : Ctx → JSValue),
      cfg.shouldIntercept = none → cfg.interceptCall = none → cfg.replaceFunction = none →
      cfg.modifyResult = none → cfg.modifyArgs = some m →
      truthy (m (applyBaseCtx cfg tgt fn.name thisArg args now)) = false →
      (applyInterceptor cfg obs now fn tgt thisArg args).1 = fn.call thisArg args) ∧
    (∀ (cfg : Config) (obs : List Observer) (now : Nat) (fn : FnTarget)
        (tgt newTarget : JSValue) (args : List JSValue) (m : Ctx → JSValue) (xs : List JSValue),
      cfg.shouldIntercept = none → cfg.interceptConstruct = none →
      cfg.modifyArgs = some m →
      m (constructBaseCtx cfg tgt fn.name args newTarget now) = .arr xs →
      (constructInterceptor cfg obs now fn tgt args newTarget).1 = fn.construct xs newTarget) ∧
    (∀ (cfg : Config) (obs : List Observer) (now : Nat) (fn : FnTarget)
        (tgt newTarget : JSValue) (args : List JSValue) (m : Ctx → JSValue),
      cfg.shouldIntercept = none → cfg.interceptConstruct = none →
      cfg.modifyArgs = some m →
      truthy (m (constructBaseCtx cfg tgt fn.name args newTarget now)) = false →
      (constructInterceptor cfg obs now fn tgt args newTarget).1 = fn.construct args newTarget) := by
  refine ⟨?_, ?_, ?_, ?_⟩
  · intro cfg obs now fn tgt thisArg args m xs hsi hic hrf hmr hma hm
    cases hc : fn.call thisArg xs <;>
      simp [applyInterceptor, gateBlocks, hsi, hic, hrf, hmr, hma, hm, jsOr, truthy,
        argsFromValue, richCatch, hc]
  · intro cfg obs now fn tgt thisArg args m hsi hic hrf hmr hma hm
    cases hc : fn.call thisArg args <;>
      simp [applyInterceptor, gateBlocks, hsi, hic, hrf, hmr, hma, hm, jsOr,
        argsFromValue, richCatch, hc]
  · intro cfg obs now fn tgt newTarget args m xs hsi hic hma hm
    cases hc : fn.construct xs newTarget <;>
      simp [constructInterceptor, gateBlocks, hsi, hic, hma, hm, jsOr, truthy,
        argsFromValue, richCatch, hc]
  · intro cfg obs now fn tgt newTarget args m hsi hic hma hm
    cases hc : fn.construct args newTarget <;>
      simp [constructInterceptor, gateBlocks, hsi, hic, hma, hm, jsOr,
        argsFromValue, richCatch, hc]

/-- C6 counterexample: the claim says an empty list returned by the
argument modifier keeps the original arguments; the code delegates with the
empty list instead.  With an arity-counting invocable and three original
arguments, delegation observes zero arguments, not three. -/
theorem modify_args_empty_list_replaces :
    (applyInterceptor emptyArgsConfig [] 0 lenFn (.ref 0) .undefined [.num 1, .num 2, .num 3]).1 =
      .ok (.num 0) ∧
    lenFn.call .undefined [.num 1, .num 2, .num 3] = .ok (.num 3) :=
  ⟨rfl, rfl⟩

/-- C6 witness: the amended law at concrete inputs — an empty-array
modifier delegates with no arguments, an undefined-returning modifier keeps
the three original arguments. -/
theorem modify_args_truthy_replaces_witness :
    (applyInterceptor emptyArgsConfig [] 0 lenFn (.ref 0) .undefined [.num 1, .num 2, .num 3]).1 =
      lenFn.call .undefined [] ∧
    (applyInterceptor undefArgsConfig [] 0 lenFn (.ref 0) .undefined [.num 1, .num 2, .num 3]).1 =
      lenFn.call .undefined [.num 1, .num 2, .num 3] ∧
    (constructInterceptor emptyArgsConfig [] 0 lenFn (.ref 0) [.num 1, .num 2] .undefined).1 =
      lenFn.construct [] .undefined ∧
    (constructInterceptor undefArgsConfig [] 0 lenFn (.ref 0) [.num 1, .num 2] .undefined).1 =
      lenFn.construct [.num 1, .num 2] .undefined :=
  ⟨modify_args_truthy_replaces.1 emptyArgsConfig [] 0 lenFn (.ref 0) .undefined
      [.num 1, .num 2, .num 3] _ [] rfl rfl rfl rfl rfl rfl,
   modify_args_truthy_replaces.2.1 undefArgsConfig [] 0 lenFn (.ref 0) .undefined
      [.num 1, .num 2, .num 3] _ rfl rfl rfl rfl rfl rfl,
   modify_args_truthy_replaces.2.2.1 emptyArgsConfig [] 0 lenFn (.ref 0) .undefined
      [.num 1, .num 2] _ [] rfl rfl rfl rfl,
   modify_args_truthy_replaces.2.2.2 undefArgsConfig [] 0 lenFn (.ref 0) .undefined
      [.num 1, .num 2] _ rfl rfl rfl rfl⟩

/-- C8: the engine runs a session installed with the reduced per-kind
backward-compatible shape through the same normalization path without
fault, but the per-kind profile is ignored rather than honoured: with a
get-profile whose result modifier forces the string X, reading p from the
target with p = 1 still yields 1, while the equivalent rich configuration
yields X.  The two sessions do not behave identically. -/
theorem reduced_config_profile_ignored :
    (getInterceptor (normalizeConfig reducedGetOptions) [] 0
        { props := [("p", .num 1)] } (.ref 0) "p" .undefined).1 = .num 1 ∧
    (getInterceptor (normalizeConfig richGetOptions) [] 0
        { props := [("p", .num 1)] } (.ref 0) "p" .undefined).1 = .str "X" :=
  ⟨rfl, rfl⟩

/-- C9 (amended): revoke resolves by registered name or by reverse lookup
from facade identity and never faults; an unknown name (or a stale name or
metadata entry) warns and returns null, but an entity that is not a watched
facade warns and returns the entity itself, not null. -/
theorem revoke_no_session_diagnostics :
    (∀ (st : ManagerState) (n : String),
      st.namedObjects.lookup n = none →
      unwatch st (.str n) =
        (.null, st, [.consoleWarn ("No watched object found with name: " ++ n)])) ∧
    (∀ (st : ManagerState) (n : String) (pr : Nat × Nat),
      st.namedObjects.lookup n = some pr →
      st.watchedObjects.lookup pr.1 = none →
      unwatch st (.str n) = (.null, st, [.consoleWarn "Object is not being watched"])) ∧
    (∀ (st : ManagerState) (pid : Nat),
      st.proxyMetadata.lookup pid = none →
      unwatch st (.ref pid) = (.ref pid, st, [.consoleWarn "Object is not being watched"])) ∧
    (∀ (st : ManagerState) (pid tid : Nat),
      st.proxyMetadata.lookup pid = some tid →
      st.watchedObjects.lookup tid = none →
      unwatch st (.ref pid) = (.null, st, [.consoleWarn "Object is not being watched"])) := by
  refine ⟨?_, ?_, ?_, ?_⟩
  · intro st n h; simp [unwatch, h]
  · intro st n pr h1 h2; simp [unwatch, h1, h2]
  · intro st pid h; simp [unwatch, h]
  · intro st pid tid h1 h2; simp [unwatch, h1, h2]

/-- C9 counterexample: the claim says revoke returns none for every
argument resolving to no session; for a non-facade entity the code returns
the entity itself, which is not null. -/
theorem revoke_unknown_entity_returns_entity :
    (unwatch ({} : ManagerState) (.ref 5)).1 = .ref 5 ∧
    (unwatch ({} : ManagerState) (.ref 5)).1 ≠ .null := by
  refine ⟨rfl, ?_⟩
  intro h
  rw [show (unwatch ({} : ManagerState) (.ref 5)).1 = .ref 5 from rfl] at h
  cases h

/-- C9 witness: the four no-session paths at concrete registries. -/
theorem revoke_no_session_diagnostics_witness :
    unwatch ({} : ManagerState) (.str "x") =
      (.null, {}, [.consoleWarn "No watched object found with name: x"]) ∧
    unwatch ({ namedObjects := [("x", (0, 1))] } : ManagerState) (.str "x") =
      (.null, { namedObjects := [("x", (0, 1))] },
        [.consoleWarn "Object is not being watched"]) ∧
    unwatch ({} : ManagerState) (.ref 5) =
      (.ref 5, {}, [.consoleWarn "Object is not being watched"]) ∧
    unwatch ({ proxyMetadata := [(1, 0)] } : ManagerState) (.ref 1) =
      (.null, { proxyMetadata := [(1, 0)] },
        [.consoleWarn "Object is not being watched"]) :=
  ⟨revoke_no_session_diagnostics.1 {} "x" rfl,
   revoke_no_session_diagnostics.2.1 { namedObjects := [("x", (0, 1))] } "x" (0, 1) rfl rfl,
   revoke_no_session_diagnostics.2.2.1 {} 5 rfl,
   revoke_no_session_diagnostics.2.2.2 { proxyMetadata := [(1, 0)] } 1 0 rfl rfl⟩

/-- C10: the has and access result modifiers cannot force a falsy outcome,
because the code keeps the delegated value whenever the modifier's return
is falsy (the or-expression of lines 577 and 425): a has modifier answering
false over a present property leaves the facade reporting true, an access
modifier answering any falsy value leaves the delegated value unchanged,
and a truthy verdict does take effect. -/
theorem falsy_result_modifier_cannot_override :
    (∀ (cfg : Config) (now : Nat) (s : ObjState) (tgt : JSValue) (p : String)
        (m : Ctx → JSValue),
      cfg.modifyHasResult = some m →
      reflectHas s p = true →
      m { hasBaseCtx cfg tgt p now with propExists := some (.bool true) } = .bool false →
      (hasInterceptor cfg now s tgt p).1 = .bool true) ∧
    (∀ (cfg : Config) (obs : List Observer) (now : Nat) (s : ObjState)
        (tgt receiver : JSValue) (p : String) (m : Ctx → JSValue),
      cfg.shouldIntercept = none → cfg.interceptGet = none →
      cfg.modifyGetResult = some m →
      truthy (m { getBaseCtx cfg tgt p receiver now with value := some (reflectGet s p) }) = false →
      (getInterceptor cfg obs now s tgt p receiver).1 = reflectGet s p) ∧
    (∀ (cfg : Config) (obs : List Observer) (now : Nat) (s : ObjState)
        (tgt receiver : JSValue) (p : String) (m : Ctx → JSValue),
      cfg.shouldIntercept = none → cfg.interceptGet = none →
      cfg.modifyGetResult = some m →
      truthy (m { getBaseCtx cfg tgt p receiver now with value := some (reflectGet s p) }) = true →
      (getInterceptor cfg obs now s tgt p receiver).1 =
        m { getBaseCtx cfg tgt p receiver now with value := some (reflectGet s p) }) := by
  refine ⟨?_, ?_, ?_⟩
  · intro cfg now s tgt p m hm hhas hfalse
    simp [hasInterceptor, hm, hhas, hfalse, jsOr, truthy]
  · intro cfg obs now s tgt receiver p m hsi hig hm htr
    simp [getInterceptor, gateBlocks, hsi, hig, hm, jsOr, htr]
  · intro cfg obs now s tgt receiver p m hsi hig hm htr
    simp [getInterceptor, gateBlocks, hsi, hig, hm, jsOr, htr]

/-- C10 witness: on the target with a = 1, a has modifier answering false
still reports true, and an access modifier answering false leaves the
value 1. -/
theorem falsy_result_modifier_cannot_override_witness :
    (hasInterceptor hasVetoConfig 0 sampleState (.ref 0) "a").1 = .bool true ∧
    (getInterceptor getFalsyConfig [] 0 sampleState (.ref 0) "a" .undefined).1 = .num 1 :=
  ⟨falsy_result_modifier_cannot_override.1 hasVetoConfig 0 sampleState (.ref 0) "a" _
      rfl rfl rfl,
   falsy_result_modifier_cannot_override.2.1 getFalsyConfig [] 0 sampleState (.ref 0) .undefined
      "a" _ rfl rfl rfl rfl⟩

/-- C4 (amended): only the four rich kinds — invoke, construct, access and
mutate — consult the conditional gate; for those, a gate evaluating falsy
on the entry context makes the interceptor delegate directly and return
with no hook, observer, debugger or log effect and a result identical to
the direct operation.  The other nine kinds never read the gate: their
pipelines are unchanged under any gate configuration. -/
theorem gate_passthrough_rich_kinds_only :
    (∀ (cfg : Config) (obs : List Observer) (now : Nat) (fn : FnTarget)
        (tgt thisArg : JSValue) (args : List JSValue) (g : Ctx → JSValue),
      cfg.shouldIntercept = some g →
      truthy (g (applyBaseCtx cfg tgt fn.name thisArg args now)) = false →
      applyInterceptor cfg obs now fn tgt thisArg args = (fn.call thisArg args, [])) ∧
    (∀ (cfg : Config) (obs : List Observer) (now : Nat) (fn : FnTarget)
        (tgt newTarget : JSValue) (args : List JSValue) (g : Ctx → JSValue),
      cfg.shouldIntercept = some g →
      truthy (g (constructBaseCtx cfg tgt fn.name args newTarget now)) = false →
      constructInterceptor cfg obs now fn tgt args newTarget =
        (fn.construct args newTarget, [])) ∧
    (∀ (cfg : Config) (obs : List Observer) (now : Nat) (s : ObjState)
        (tgt receiver : JSValue) (p : String) (g : Ctx → JSValue),
      cfg.shouldIntercept = some g →
      truthy (g (getBaseCtx cfg tgt p receiver now)) = false →
      getInterceptor cfg obs now s tgt p receiver = (reflectGet s p, [])) ∧
    (∀ (cfg : Config) (obs : List Observer) (now : Nat) (s : ObjState)
        (tgt v receiver : JSValue) (p : String) (g : Ctx → JSValue),
      cfg.shouldIntercept = some g →
      truthy (g (setBaseCtx cfg s tgt p v receiver now)) = false →
      setInterceptor cfg obs now s tgt p v receiver =
        ((reflectSet s p v).1, (reflectSet s p v).2, [])) ∧
    (∀ (cfg : Config) (g : Option (Ctx → JSValue)) (now : Nat) (s : ObjState)
        (tgt : JSValue) (p : String),
      deletePropertyInterceptor { cfg with shouldIntercept := g } now s tgt p =
        deletePropertyInterceptor cfg now s tgt p) ∧
    (∀ (cfg : Config) (g : Option (Ctx → JSValue)) (now : Nat) (s : ObjState)
        (tgt d : JSValue) (p : String),
      definePropertyInterceptor { cfg with shouldIntercept := g } now s tgt p d =
        definePropertyInterceptor cfg now s tgt p d) ∧
    (∀ (cfg : Config) (g : Option (Ctx → JSValue)) (now : Nat) (s : ObjState)
        (tgt : JSValue) (p : String),
      hasInterceptor { cfg with shouldIntercept := g } now s tgt p =
        hasInterceptor cfg now s tgt p) ∧
    (∀ (cfg : Config) (g : Option (Ctx → JSValue)) (now : Nat) (s : ObjState)
        (tgt : JSValue),
      ownKeysInterceptor { cfg with shouldIntercept := g } now s tgt =
        ownKeysInterceptor cfg now s tgt) ∧
    (∀ (cfg : Config) (g : Option (Ctx → JSValue)) (now : Nat) (s : ObjState)
        (tgt : JSValue) (p : String),
      getOwnPropertyDescriptorInterceptor { cfg with shouldIntercept := g } now s tgt p =
        getOwnPropertyDescriptorInterceptor cfg now s tgt p) ∧
    (∀ (cfg : Config) (g : Option (Ctx → JSValue)) (now : Nat) (s : ObjState)
        (tgt : JSValue),
      getPrototypeOfInterceptor { cfg with shouldIntercept := g } now s tgt =
        getPrototypeOfInterceptor cfg now s tgt) ∧
    (∀ (cfg : Config) (g : Option (Ctx → JSValue)) (s : ObjState) (prototype : JSValue),
      setPrototypeOfInterceptor { cfg with shouldIntercept := g } s prototype =
        setPrototypeOfInterceptor cfg s prototype) ∧
    (∀ (cfg : Config) (g : Option (Ctx → JSValue)) (s : ObjState),
      isExtensibleInterceptor { cfg with shouldIntercept := g } s =
        isExtensibleInterceptor cfg s) ∧
    (∀ (cfg : Config) (g : Option (Ctx → JSValue)) (s : ObjState),
      preventExtensionsInterceptor { cfg with shouldIntercept := g } s =
        preventExtensionsInterceptor cfg s) := by
  refine ⟨?_, ?_, ?_, ?_, ?_, ?_, ?_, ?_, ?_, ?_, ?_, ?_, ?_⟩
  · intro cfg obs now fn tgt thisArg args g hg htr
    simp [applyInterceptor, gateBlocks, hg, htr]
  · intro cfg obs now fn tgt newTarget args g hg htr
    simp [constructInterceptor, gateBlocks, hg, htr]
  · intro cfg obs now s tgt receiver p g hg htr
    simp [getInterceptor, gateBlocks, hg, htr]
  · intro cfg obs now s tgt v receiver p g hg htr
    simp [setInterceptor, gateBlocks, hg, htr]
  · intro cfg g now s tgt p; rfl
  · intro cfg g now s tgt d p; rfl
  · intro cfg g now s tgt p; rfl
  · intro cfg g now s tgt; rfl
  · intro cfg g now s tgt p; rfl
  · intro cfg g now s tgt; rfl
  · intro cfg g s prototype; rfl
  · intro cfg g s; rfl
  · intro cfg g s; rfl

/-- C4 counterexample: with an always-false gate configured together with a
delete hook, deleting the key a from the target with a = 1 still runs the
kind-specific hook and still emits a log line — the delete kind never
consults the gate, so the claimed strict pass-through fails for it. -/
theorem gate_false_still_runs_delete_pipeline :
    (deletePropertyInterceptor gateFalseDeleteConfig 0 sampleState (.ref 0) "a").2.2 =
      [.hookRun, .consoleLog "debug" "Property deleted"] ∧
    Event.hookRun ∈ (deletePropertyInterceptor gateFalseDeleteConfig 0 sampleState (.ref 0) "a").2.2 := by
  refine ⟨rfl, ?_⟩
  rw [show (deletePropertyInterceptor gateFalseDeleteConfig 0 sampleState (.ref 0) "a").2.2 =
      [Event.hookRun, .consoleLog "debug" "Property deleted"] from rfl]
  exact List.mem_cons_self _ _

/-- C4 witness: the pass-through at concrete inputs for the four gated
kinds, and the gate-independence of the delete kind. -/
theorem gate_passthrough_rich_kinds_only_witness :
    applyInterceptor gateFalseConfig [] 0 lenFn (.ref 0) .undefined [.num 7] =
      (.ok (.num 1), []) ∧
    constructInterceptor gateFalseConfig [] 0 lenFn (.ref 0) [.num 7, .num 8] .undefined =
      (.ok (.num 2), []) ∧
    getInterceptor gateFalseConfig [] 0 sampleState (.ref 0) "a" .undefined = (.num 1, []) ∧
    setInterceptor gateFalseConfig [] 0 sampleState (.ref 0) "a" (.num 2) .undefined =
      (true, { props := [("a", .num 2)] }, []) ∧
    deletePropertyInterceptor gateFalseDeleteConfig 0 sampleState (.ref 0) "a" =
      deletePropertyInterceptor { gateFalseDeleteConfig with shouldIntercept := none } 0
        sampleState (.ref 0) "a" :=
  ⟨gate_passthrough_rich_kinds_only.1 gateFalseConfig [] 0 lenFn (.ref 0) .undefined [.num 7] _
      rfl rfl,
   gate_passthrough_rich_kinds_only.2.1 gateFalseConfig [] 0 lenFn (.ref 0) .undefined
      [.num 7, .num 8] _ rfl rfl,
   gate_passthrough_rich_kinds_only.2.2.1 gateFalseConfig [] 0 sampleState (.ref 0) .undefined "a" _
      rfl rfl,
   gate_passthrough_rich_kinds_only.2.2.2.1 gateFalseConfig [] 0 sampleState (.ref 0) (.num 2)
      .undefined "a" _ rfl rfl,
   (gate_passthrough_rich_kinds_only.2.2.2.2.1 { gateFalseDeleteConfig with shouldIntercept := none }
      (some (fun _ => .bool false)) 0 sampleState (.ref 0) "a").symm ▸ rfl⟩

/-- An invoke pipeline under the configuration of an empty options object
returns exactly what direct delegation returns, including any fault the
invocable throws. -/
theorem applyInterceptor_emptyConfig (obs : List Observer) (now : Nat) (f : FnTarget)
    (tgt thisArg : JSValue) (args : List JSValue) :
    (applyInterceptor emptyConfig obs now f tgt thisArg args).1 = f.call thisArg args := by
  cases hc : f.call thisArg args <;>
    simp [applyInterceptor, emptyConfig, emptyOptions, normalizeConfig, gateBlocks,
      execHook, jsOr, argsFromValue, richCatch, hc]

/-- A construct pipeline under the configuration of an empty options object
returns exactly what direct delegation returns, including faults. -/
theorem constructInterceptor_emptyConfig (obs : List Observer) (now : Nat) (f : FnTarget)
    (tgt : JSValue) (args : List JSValue) (newTarget : JSValue) :
    (constructInterceptor emptyConfig obs now f tgt args newTarget).1 =
      f.construct args newTarget := by
  cases hc : f.construct args newTarget <;>
    simp [constructInterceptor, emptyConfig, emptyOptions, normalizeConfig, gateBlocks,
      execHook, jsOr, argsFromValue, richCatch, hc]

/-- C1: installing a target with no active session under the empty
configuration yields a facade whose identity differs from the target's,
and every one of the thirteen fundamental operations performed on that
facade (no hook being configured) produces a result — value, success flag
and target state, faults included — identical to performing the operation
directly on the target.  The freshness hypotheses state the host-allocator
invariant: every live identity lies below the allocation counter and the
next identity has never been revoked. -/
theorem install_empty_config_transparent (st : ManagerState) (t : Target)
    (h1 : st.watchedObjects.lookup t.id = none)
    (h2 : t.id < st.nextProxyId)
    (h3 : st.nextProxyId ∉ st.revokedProxies) :
    (watch st t emptyOptions none).1 ≠ t.id ∧
    ∀ (op : OpRequest) (now : Nat),
      (facadeOp (watch st t emptyOptions none).2.1.revokedProxies emptyConfig
          (watch st t emptyOptions none).2.1.globalInterceptors
          (watch st t emptyOptions none).1 t op now).1 = directOp t op := by
  have hw1 : (watch st t emptyOptions none).1 = st.nextProxyId := by
    simp [watch, h1]
  have hwr : (watch st t emptyOptions none).2.1.revokedProxies = st.revokedProxies := by
    simp [watch, h1]
  have hwg : (watch st t emptyOptions none).2.1.globalInterceptors = st.globalInterceptors := by
    simp [watch, h1]
  constructor
  · rw [hw1]; omega
  · intro op now
    rw [hw1, hwr, hwg]
    simp only [facadeOp]
    rw [if_neg h3]
    cases op with
    | get p receiver => rfl
    | set p v receiver => rfl
    | defineProp p d => rfl
    | deleteProp p => rfl
    | has p => rfl
    | ownKeys => rfl
    | getOwnDesc p => rfl
    | getProto => rfl
    | setProto v => rfl
    | isExt => rfl
    | preventExt => rfl
    | apply thisArg args =>
        cases hf : t.fn with
        | none => simp [interceptOp, directOp, hf]
        | some f =>
            simp only [interceptOp, directOp, hf]
            rw [applyInterceptor_emptyConfig]
    | construct args newTarget =>
        cases hf : t.fn with
        | none => simp [interceptOp, directOp, hf]
        | some f =>
            simp only [interceptOp, directOp, hf]
            rw [constructInterceptor_emptyConfig]

/-- C1 witness: a fresh manager, the sample target, and the access
operation on the property a. -/
theorem install_empty_config_transparent_witness :
    (watch ({} : ManagerState) sampleTarget emptyOptions none).1 ≠ sampleTarget.id ∧
    (facadeOp (watch ({} : ManagerState) sampleTarget emptyOptions none).2.1.revokedProxies
        emptyConfig
        (watch ({} : ManagerState) sampleTarget emptyOptions none).2.1.globalInterceptors
        (watch ({} : ManagerState) sampleTarget emptyOptions none).1 sampleTarget
        (.get "a" .undefined) 0).1 = directOp sampleTarget (.get "a" .undefined) :=
  ⟨(install_empty_config_transparent {} sampleTarget rfl (by decide)
      (List.not_mem_nil _)).1,
   (install_empty_config_transparent {} sampleTarget rfl (by decide)
      (List.not_mem_nil _)).2 (.get "a" .undefined) 0⟩

/-- C2: revoking the facade just produced by an install returns exactly the
original target reference; afterwards the facade runs no pipeline for any
operation under any configuration (every operation faults in the host with
no observable pipeline effect) and the registry can no longer resolve the
facade back to a session. -/
theorem revoke_roundtrip_restores_target (st : ManagerState) (t : Target)
    (opts : RawOptions) (name : Option String)
    (h1 : st.watchedObjects.lookup t.id = none) :
    (unwatch (watch st t opts name).2.1 (.ref (watch st t opts name).1)).1 = .ref t.id ∧
    resolveSession (unwatch (watch st t opts name).2.1 (.ref (watch st t opts name).1)).2.1
      (.ref (watch st t opts name).1) = none ∧
    ∀ (cfg : Config) (obs : List Observer) (op : OpRequest) (now : Nat),
      facadeOp
        (unwatch (watch st t opts name).2.1 (.ref (watch st t opts name).1)).2.1.revokedProxies
        cfg obs (watch st t opts name).1 t op now =
        (.error "TypeError: Cannot perform operation on a revoked proxy", []) := by
  simp only [watch, h1]
  simp only [unwatch, unwatchErase, List.lookup, beq_self_eq_true]
  refine ⟨?_, ?_, ?_⟩
  · trivial
  · simp only [resolveSession, lookup_removeKeyN]
  · intro cfg obs op now
    simp only [facadeOp]
    rw [if_pos (List.mem_cons_self _ _)]

/-- C2 witness: the fresh manager and the sample target; the facade is
revoked, unresolvable, and the access operation on it faults. -/
theorem revoke_roundtrip_restores_target_witness :
    (unwatch (watch ({} : ManagerState) sampleTarget emptyOptions none).2.1
        (.ref (watch ({} : ManagerState) sampleTarget emptyOptions none).1)).1 = .ref 0 ∧
    resolveSession
      (unwatch (watch ({} : ManagerState) sampleTarget emptyOptions none).2.1
        (.ref (watch ({} : ManagerState) sampleTarget emptyOptions none).1)).2.1
      (.ref (watch ({} : ManagerState) sampleTarget emptyOptions none).1) = none ∧
    facadeOp
      (unwatch (watch ({} : ManagerState) sampleTarget emptyOptions none).2.1
        (.ref (watch ({} : ManagerState) sampleTarget emptyOptions none).1)).2.1.revokedProxies
      emptyConfig [] (watch ({} : ManagerState) sampleTarget emptyOptions none).1 sampleTarget
      (.get "a" .undefined) 0 =
      (.error "TypeError: Cannot perform operation on a revoked proxy", []) :=
  ⟨(revoke_roundtrip_restores_target {} sampleTarget emptyOptions none rfl).1,
   (revoke_roundtrip_restores_target {} sampleTarget emptyOptions none rfl).2.1,
   (revoke_roundtrip_restores_target {} sampleTarget emptyOptions none rfl).2.2 emptyConfig []
      (.get "a" .undefined) 0⟩

/-- C7: a fault thrown by a hook is caught at the hook-invocation boundary
and reported through the console, never propagated (first part); every
registered global observer is invoked whatever observers before it did
(second part); and the operation's result and target effect are unaffected
by the before/after/kind/error hooks and by the observer list, so hook and
observer faults cannot change an outcome (access and delete pipelines
shown). -/
theorem hook_observer_fault_containment :
    (∀ (h : Hook) (ctx : Ctx) (e : String),
      h ctx = .error e →
      execHook (some h) ctx =
        (.undefined, [.hookRun, .consoleError ("Hook execution error: " ++ e)])) ∧
    (∀ (obs : List Observer) (phase : String) (ctx : Ctx) (i : Nat),
      i < obs.length →
      Event.observerRun i ∈ execGlobalObservers obs phase ctx) ∧
    (∀ (ob : Observer) (rest : List Observer) (phase : String) (ctx : Ctx) (e : String) (i : Nat),
      ob phase ctx = .error e →
      execObserversFrom i (ob :: rest) phase ctx =
        [.observerRun i, .consoleError ("Global interceptor error: " ++ e)] ++
          execObserversFrom (i + 1) rest phase ctx) ∧
    (∀ (cfg : Config) (obs obs2 : List Observer) (now : Nat) (s : ObjState)
        (tgt receiver : JSValue) (p : String) (hb hg ha he : Option Hook),
      (getInterceptor { cfg with onBefore := hb, onGet := hg, onAfter := ha, onError := he }
          obs now s tgt p receiver).1 =
        (getInterceptor cfg obs2 now s tgt p receiver).1) ∧
    (∀ (cfg : Config) (now : Nat) (s : ObjState) (tgt : JSValue) (p : String)
        (hb hd ha : Option Hook),
      ((deletePropertyInterceptor { cfg with onBefore := hb, onDelete := hd, onAfter := ha }
          now s tgt p).1,
        (deletePropertyInterceptor { cfg with onBefore := hb, onDelete := hd, onAfter := ha }
          now s tgt p).2.1) =
        ((deletePropertyInterceptor cfg now s tgt p).1,
          (deletePropertyInterceptor cfg now s tgt p).2.1)) := by
  refine ⟨?_, ?_, ?_, ?_, ?_⟩
  · intro h ctx e he
    simp [execHook, he]
  · intro obs phase ctx i hi
    simpa using observerRun_mem_execObserversFrom obs phase ctx 0 i hi
  · intro ob rest phase ctx e i he
    simp [execObserversFrom, he]
  · intro cfg obs obs2 now s tgt receiver p hb hg ha he
    rw [getInterceptor_fst, getInterceptor_fst]
    rfl
  · intro cfg now s tgt p hb hd ha
    rw [deletePropertyInterceptor_outcome, deletePropertyInterceptor_outcome]
    rfl

/-- C7 witness: a throwing hook, a throwing observer ahead of a normal one,
and throwing hooks installed on the access and delete pipelines of the
sample target. -/
theorem hook_observer_fault_containment_witness :
    execHook (some throwingHook) {} =
      (.undefined, [.hookRun, .consoleError "Hook execution error: boom"]) ∧
    Event.observerRun 1 ∈ execGlobalObservers [throwingObserver, okObserver] "before" {} ∧
    execObserversFrom 0 [throwingObserver, okObserver] "before" {} =
      [.observerRun 0, .consoleError "Global interceptor error: boom"] ++
        execObserversFrom 1 [okObserver] "before" {} ∧
    (getInterceptor
        { emptyConfig with
          onBefore := some throwingHook, onGet := some throwingHook,
          onAfter := some throwingHook, onError := some throwingHook }
        [throwingObserver] 0 sampleState (.ref 0) "a" .undefined).1 =
      (getInterceptor emptyConfig [] 0 sampleState (.ref 0) "a" .undefined).1 ∧
    ((deletePropertyInterceptor
        { emptyConfig with
          onBefore := some throwingHook, onDelete := some throwingHook,
          onAfter := some throwingHook } 0 sampleState (.ref 0) "a").1,
      (deletePropertyInterceptor
        { emptyConfig with
          onBefore := some throwingHook, onDelete := some throwingHook,
          onAfter := some throwingHook } 0 sampleState (.ref 0) "a").2.1) =
      ((deletePropertyInterceptor emptyConfig 0 sampleState (.ref 0) "a").1,
        (deletePropertyInterceptor emptyConfig 0 sampleState (.ref 0) "a").2.1) :=
  ⟨hook_observer_fault_containment.1 throwingHook {} "boom" rfl,
   hook_observer_fault_containment.2.1 [throwingObserver, okObserver] "before" {} 1 (by decide),
   hook_observer_fault_containment.2.2.1 throwingObserver [okObserver] "before" {} "boom" 0 rfl,
   hook_observer_fault_containment.2.2.2.1 emptyConfig [throwingObserver] [] 0 sampleState
      (.ref 0) .undefined "a" (some throwingHook) (some throwingHook) (some throwingHook)
      (some throwingHook),
   hook_observer_fault_containment.2.2.2.2 emptyConfig 0 sampleState (.ref 0) "a"
      (some throwingHook) (some throwingHook) (some throwingHook)⟩

end WatchObj
